import Mathlib

/-
Verification of the kalshi-arbitrage-bot core against its specification.

The orchestration layer (`src/bot.py`), the configuration layer
(`src/config.py`) and the CLI settings handler (`src/cli.py`) are embedded
directly from the source.  The modules `cost_calculator.py`,
`opportunity_analyzer.py`, `execution_engine.py` and `market_api.py` are not
part of the available source tree (only their callers and unit tests are), so
the fee model, the two detectors and the trade executor are modelled from the
specification, as indicated on each definition.

Conventions of the shallow embedding:
- Python dict fields that may be absent become `Option` fields; `d.get(k, 0)`
  becomes `(·.getD 0)`.
- Monetary amounts and rates (Python floats) are modelled as rationals.
- The external order gateway is a response oracle `Nat → GatewayResponse`
  consumed sequentially; the natural-number counter threaded through the
  functions counts gateway submissions, so "no gateway call" is "counter
  unchanged".
- The external market-data source is modelled by passing its returned list
  of markets directly to the scan functions.
- The probability-arbitrage analyzer is a parameter of the bot scans, so a
  theorem quantified over all analyzers holds independently of detector
  behaviour; the concrete spec-modelled detector is also provided.
- The transient mutation of the shared executor's `auto_execute` field
  performed by `bot.py` is made observable as `auto_trace`: the list of
  successive values the field takes during the call (entry value, then the
  value after each assignment).
-/

/-! ## Fee model -/

/-- Modelled from the spec: `src/cost_calculator.py` (`FeeCalculator.get_fee_rate`)
is absent from the source tree; only `tests/test_cost_calculator.py` is present.
Spec section 4.1 and the tests require a curve symmetric around 50 cents with
taker peak 0.035 at 50, floor 0.01 reached at 2 and 98 cents, non-increasing
away from 50, and a maker rate of exactly half the taker rate; the segment in
between is linear in the distance from 50. -/
def get_fee_rate (price : ℤ) (is_maker : Bool) : ℚ :=
  let d : ℚ := |(price : ℚ) - 50|
  let taker : ℚ := if 48 ≤ d then 1 / 100 else 7 / 200 - d * (1 / 1920)
  if is_maker then taker / 2 else taker

/-- Modelled from the spec: `FeeCalculator.calculate_fee`, fee =
price × quantity × rate / 100 (spec section 4.1, pinned by the unit tests). -/
def calculate_fee (price : ℤ) (quantity : ℤ) (is_maker : Bool) : ℚ :=
  (price : ℚ) * (quantity : ℚ) * get_fee_rate price is_maker / 100

/-- One fill passed to `calculate_net_profit` (a `{"price": .., "quantity": ..}`
dict in the tests). -/
structure Fill where
  price : ℤ
  quantity : ℤ
deriving DecidableEq

/-- Modelled from the spec: `FeeCalculator.calculate_net_profit`, gross minus
the sum of per-fill fees, one role for every leg (spec section 4.1). -/
def calculate_net_profit (gross : ℚ) (trades : List Fill) (all_maker : Bool) : ℚ :=
  gross - (trades.map (fun t => calculate_fee t.price t.quantity all_maker)).sum

/-! ## Market data model and the bot's liquidity filter (from `src/bot.py`) -/

/-- A market snapshot dict as consumed by `KalshiArbitrageBot`.  A `none`
price or liquidity field models an absent dict key.  `days_to_expiration` is
the time-to-expiry input of the (spec-modelled) analyzer, pre-derived from the
expiration timestamp. -/
structure Market where
  ticker : String
  title : String
  liquidity : Option ℤ
  yes_bid : Option ℤ
  yes_ask : Option ℤ
  no_bid : Option ℤ
  no_ask : Option ℤ
  days_to_expiration : ℚ
deriving DecidableEq

/-- `KalshiArbitrageBot._has_tradeable_liquidity` (bot.py lines 73-81): a side
counts when both its bid and ask are present and unequal; the market passes
when either side counts. -/
def has_tradeable_liquidity (m : Market) : Bool :=
  let has_yes : Bool :=
    match m.yes_bid, m.yes_ask with
    | some b, some a => decide (b ≠ a)
    | _, _ => false
  let has_no : Bool :=
    match m.no_bid, m.no_ask with
    | some b, some a => decide (b ≠ a)
    | _, _ => false
  has_yes || has_no

/-- `KalshiArbitrageBot.filter_markets_by_liquidity` (bot.py lines 58-71):
keep markets with `market.get("liquidity", 0) >= min_liquidity` that also have
tradeable quotes. -/
def filter_markets_by_liquidity (min_liquidity : ℤ) (markets : List Market) : List Market :=
  markets.filter (fun m =>
    decide (min_liquidity ≤ m.liquidity.getD 0) && has_tradeable_liquidity m)

/-! ## Position sizing and the two detectors (spec-modelled) -/

/-- The process-wide configuration record of spec section 3 (PositionLimits). -/
structure PositionLimits where
  max_position_size : ℤ
  min_liquidity : ℤ
  min_profit_cents : ℚ
  min_profit_per_day : ℚ
deriving DecidableEq

/-- Modelled from the spec: `PositionSizer` (spec section 4.4): the minimum of
`max_position_size` and a conservative fraction of quoted liquidity converted
to contracts at the relevant price; 0 when liquidity is below `min_liquidity`,
never negative.  The fraction (a tenth of liquidity) is the policy default the
spec leaves open in section 9. -/
def position_size (liquidity_cents : ℤ) (price : ℤ) (limits : PositionLimits) : ℤ :=
  if liquidity_cents < limits.min_liquidity then 0
  else max 0 (min limits.max_position_size (liquidity_cents / (10 * max 1 price)))

/-- A probability-arbitrage opportunity (spec section 3). -/
structure ArbitrageOpportunity where
  market_ticker : String
  market_title : String
  total_probability : ℚ
  deviation : ℚ
  days_to_expiration : ℚ
  gross_profit : ℚ
  net_profit : ℚ
  profit_per_day : ℚ
deriving DecidableEq

/-- The side of a spread-capture trade. -/
inductive Side where
  | yes
  | no
deriving DecidableEq

/-- A spread-capture trade opportunity (spec section 3). -/
structure TradeOpportunity where
  market_ticker : String
  market_title : String
  side : Side
  buy_price : ℤ
  sell_price : ℤ
  spread : ℤ
  quantity : ℤ
  gross_profit : ℚ
  net_profit : ℚ
deriving DecidableEq

/-- The small positive floor on days-to-expiration (spec section 4.2). -/
def DAYS_EPSILON : ℚ := 1 / 100

/-- Modelled from the spec: `ArbitrageAnalyzer.find_opportunities`
(`src/opportunity_analyzer.py` is absent from the source tree).  Spec section
4.2: for each market quoting both asks, cost = yes_ask + no_ask, an
opportunity is emitted only when the net profit after two taker-fee legs is
positive; the detector applies no profit-per-day filtering. -/
def find_opportunities (limits : PositionLimits) (markets : List Market) :
    List ArbitrageOpportunity :=
  markets.filterMap (fun m =>
    match m.yes_ask, m.no_ask with
    | some ya, some na =>
      let total : ℚ := (ya : ℚ) + (na : ℚ)
      let qty : ℤ := position_size (m.liquidity.getD 0) (max ya na) limits
      let gross : ℚ := (100 - total) * (qty : ℚ) / 100
      let net : ℚ := gross - calculate_fee ya qty false - calculate_fee na qty false
      let days : ℚ := max DAYS_EPSILON m.days_to_expiration
      if 0 < net then
        some { market_ticker := m.ticker, market_title := m.title,
               total_probability := total, deviation := 100 - total,
               days_to_expiration := days, gross_profit := gross,
               net_profit := net, profit_per_day := net / days }
      else none
    | _, _ => none)

/-- Modelled from the spec: one side of the spread-capture detector (spec
section 4.3): a crossed book (bid > ask) yields buy-at-ask, sell-at-bid with
two taker-fee legs; opportunities with non-positive net profit are discarded
at detection time. -/
def spread_side_opportunity (limits : PositionLimits) (m : Market) (side : Side)
    (bid ask : Option ℤ) : List TradeOpportunity :=
  match bid, ask with
  | some b, some a =>
    if a < b then
      let spread : ℤ := b - a
      let qty : ℤ := position_size (m.liquidity.getD 0) a limits
      let gross : ℚ := (spread : ℚ) * (qty : ℚ) / 100
      let net : ℚ := gross - calculate_fee a qty false - calculate_fee b qty false
      if 0 < net then
        [{ market_ticker := m.ticker, market_title := m.title, side := side,
           buy_price := a, sell_price := b, spread := spread, quantity := qty,
           gross_profit := gross, net_profit := net }]
      else []
    else []
  | _, _ => []

/-- Modelled from the spec: `SpreadCaptureDetector` over a market list (spec
section 4.3); evaluates the yes side and the no side independently. -/
def find_trade_opportunities (limits : PositionLimits) (markets : List Market) :
    List TradeOpportunity :=
  markets.flatMap (fun m =>
    spread_side_opportunity limits m .yes m.yes_bid m.yes_ask ++
    spread_side_opportunity limits m .no m.no_bid m.no_ask)

/-! ## Ranking -/

/-- The descending-net-profit ordering used to rank trade opportunities
(bot.py lines 124 and 155: `sort(key=net_profit, reverse=True)`). -/
def net_desc (a b : TradeOpportunity) : Prop := b.net_profit ≤ a.net_profit

instance : DecidableRel net_desc := fun a b =>
  inferInstanceAs (Decidable (b.net_profit ≤ a.net_profit))

instance : IsTotal TradeOpportunity net_desc :=
  ⟨fun a b => le_total b.net_profit a.net_profit⟩

instance : IsTrans TradeOpportunity net_desc :=
  ⟨fun _ _ _ h1 h2 => le_trans h2 h1⟩

/-- The stable descending-net-profit sort applied by the bot to the
executor's scan output. -/
def sort_by_net_profit (l : List TradeOpportunity) : List TradeOpportunity :=
  l.insertionSort net_desc

/-! ## Trade executor (spec-modelled) and the bot's auto-execute loop -/

/-- One response of the external order gateway to a submission. -/
inductive GatewayResponse where
  | accepted
  | rejected
  | fatal
deriving DecidableEq

/-- Modelled from the spec: `TradeExecutor.execute_trade`
(`src/execution_engine.py` is absent from the source tree).  Spec section 4.5:
a net profit below `min_profit_cents` is rejected locally with no gateway
call; otherwise the two legs are submitted sequentially, a rejected first leg
returns failure, a rejected second leg after an accepted first leg reports the
partial state, and a fatal gateway fault is raised (`Except.error`).  The
result carries the gateway-submission counter after the call. -/
def execute_trade (min_profit_cents : ℚ) (gw : ℕ → GatewayResponse)
    (o : TradeOpportunity) (n : ℕ) : Except String (Bool × String) × ℕ :=
  if o.net_profit < min_profit_cents then
    (.ok (false, "profit below threshold, no order submitted"), n)
  else
    match gw n with
    | .fatal => (.error "fatal gateway error on first leg", n + 1)
    | .rejected => (.ok (false, "first leg rejected"), n + 1)
    | .accepted =>
      match gw (n + 1) with
      | .fatal => (.error "fatal gateway error on second leg", n + 2)
      | .rejected => (.ok (false, "PARTIAL: first leg filled, second leg rejected"), n + 2)
      | .accepted => (.ok (true, "trade executed"), n + 2)

/-- Outcome of an auto-execute batch: the opportunities on which an
`execute_trade` attempt was made, the number of successful executions, the
gateway counter afterwards, and whether a fatal gateway fault interrupted the
batch. -/
structure ExecOutcome where
  attempted : List TradeOpportunity
  executed_count : ℕ
  calls_end : ℕ
  fatal : Bool
deriving DecidableEq

/-- The bot's auto-execute loop (bot.py lines 162-166): call `execute_trade`
on each opportunity in turn, counting successes; a returned failure does not
stop the loop, a fatal gateway fault (a raised exception in the source)
stops the remainder of the batch. -/
def run_auto_exec (min_profit_cents : ℚ) (gw : ℕ → GatewayResponse) :
    List TradeOpportunity → ℕ → ExecOutcome
  | [], n => ⟨[], 0, n, false⟩
  | o :: rest, n =>
    match execute_trade min_profit_cents gw o n with
    | (.error _, m) => ⟨[o], 0, m, true⟩
    | (.ok (s, _), m) =>
      let r := run_auto_exec min_profit_cents gw rest m
      ⟨o :: r.attempted, (if s then 1 else 0) + r.executed_count, r.calls_end, r.fatal⟩

/-- The executor state constructed in `KalshiArbitrageBot.__init__`
(bot.py lines 49-54): profit threshold, position cap and the shared
`auto_execute` flag. -/
structure TradeExecutor where
  min_profit_cents : ℚ
  max_position_size : ℤ
  auto_execute : Bool
deriving DecidableEq

/-- Modelled from the spec: `TradeExecutor.scan_and_execute` (spec section
4.5): detection always runs and the full opportunity list is returned; when
the executor's `auto_execute` flag is set, `execute` is additionally attempted
on the positive-net-profit opportunities in descending net-profit order (a
fatal fault aborts the batch but not the returned report).  The executor
applies no liquidity floor of its own: the bot passes pre-filtered markets. -/
def scan_and_execute (ex : TradeExecutor) (gw : ℕ → GatewayResponse)
    (markets : List Market) (n : ℕ) : List TradeOpportunity × ℕ :=
  let limits : PositionLimits :=
    ⟨ex.max_position_size, 0, ex.min_profit_cents, 0⟩
  let opps := find_trade_opportunities limits markets
  if ex.auto_execute then
    let profitable :=
      (sort_by_net_profit opps).filter (fun o => decide (0 < o.net_profit))
    let r := run_auto_exec ex.min_profit_cents gw profitable n
    (opps, r.calls_end)
  else (opps, n)

/-! ## The bot orchestrator (from `src/bot.py`) -/

/-- The mutable state of `KalshiArbitrageBot` relevant to the claims: the
shared executor and the two thresholds read from configuration at
construction. -/
structure KalshiArbitrageBot where
  executor : TradeExecutor
  min_profit_per_day : ℚ
  min_liquidity : ℤ
deriving DecidableEq

/-- `KalshiArbitrageBot.scan_arbitrage_opportunities` (bot.py lines 99-109):
fetch and filter markets, return `[]` when none remain, otherwise run the
analyzer and keep the opportunities with
`profit_per_day >= min_profit_per_day`. -/
def scan_arbitrage_opportunities (bot : KalshiArbitrageBot)
    (analyzer : List Market → List ArbitrageOpportunity)
    (fetched : List Market) : List ArbitrageOpportunity :=
  let markets := filter_markets_by_liquidity bot.min_liquidity fetched
  if markets.isEmpty then []
  else (analyzer markets).filter
    (fun o => decide (bot.min_profit_per_day ≤ o.profit_per_day))

/-- Result of `scan_immediate_trades`: the ranked opportunities, the gateway
counter after the call, and the trace of values taken by the shared
executor's `auto_execute` field during the call. -/
structure ImmediateScanResult where
  opportunities : List TradeOpportunity
  calls_end : ℕ
  auto_trace : List Bool
deriving DecidableEq

/-- `KalshiArbitrageBot.scan_immediate_trades` (bot.py lines 111-127): after
the empty-market early return, the shared executor's `auto_execute` field is
set to the call's parameter, `scan_and_execute` runs, and the field is
restored in the `finally` block; the returned list is sorted by descending
net profit. -/
def scan_immediate_trades (bot : KalshiArbitrageBot) (gw : ℕ → GatewayResponse)
    (fetched : List Market) (auto_execute : Bool) (n : ℕ) : ImmediateScanResult :=
  let markets := filter_markets_by_liquidity bot.min_liquidity fetched
  if markets.isEmpty then ⟨[], n, [bot.executor.auto_execute]⟩
  else
    let scan_res := scan_and_execute { bot.executor with auto_execute := auto_execute } gw markets n
    ⟨sort_by_net_profit scan_res.1, scan_res.2,
      [bot.executor.auto_execute, auto_execute, bot.executor.auto_execute]⟩

/-- Result of `scan_all_opportunities`: the returned triple (or the
propagated fatal gateway exception), the gateway counter after the call, the
`auto_execute` field trace, and the opportunities on which the auto-execute
loop attempted `execute_trade`. -/
structure FullScanResult where
  outcome : Except String (List ArbitrageOpportunity × List TradeOpportunity × ℕ)
  calls_end : ℕ
  auto_trace : List Bool
  attempted : List TradeOpportunity

/-- `KalshiArbitrageBot.scan_all_opportunities` (bot.py lines 129-168): early
return on no markets; analyzer output filtered by `min_profit_per_day`; the
executor's `auto_execute` field is set to `False` around `scan_and_execute`
and restored; when the `auto_execute` parameter is true and opportunities
exist, `execute_trade` is attempted on every positive-net-profit opportunity
of the ranked list, counting successes (an uncaught fatal gateway fault
propagates out of the call). -/
def scan_all_opportunities (bot : KalshiArbitrageBot)
    (analyzer : List Market → List ArbitrageOpportunity)
    (gw : ℕ → GatewayResponse) (fetched : List Market)
    (auto_execute : Bool) (n : ℕ) : FullScanResult :=
  let markets := filter_markets_by_liquidity bot.min_liquidity fetched
  if markets.isEmpty then
    ⟨.ok ([], [], 0), n, [bot.executor.auto_execute], []⟩
  else
    let arbitrage_opps := (analyzer markets).filter
      (fun o => decide (bot.min_profit_per_day ≤ o.profit_per_day))
    let scan_res := scan_and_execute { bot.executor with auto_execute := false } gw markets n
    let trade_opps := sort_by_net_profit scan_res.1
    let trace := [bot.executor.auto_execute, false, bot.executor.auto_execute]
    if auto_execute && !trade_opps.isEmpty then
      let profitable := trade_opps.filter (fun o => decide (0 < o.net_profit))
      let r := run_auto_exec bot.executor.min_profit_cents gw profitable scan_res.2
      if r.fatal then
        ⟨.error "fatal gateway error", r.calls_end, trace, r.attempted⟩
      else
        ⟨.ok (arbitrage_opps, trade_opps, r.executed_count), r.calls_end, trace, r.attempted⟩
    else
      ⟨.ok (arbitrage_opps, trade_opps, 0), scan_res.2, trace, []⟩

/-- The profitable prefix of the bot's ranked spread-opportunity list: exactly
the list `[o for o in trade_opps if o.net_profit > 0]` the auto-execute loop
of `scan_all_opportunities` iterates over (bot.py line 161). -/
def profitable_batch (bot : KalshiArbitrageBot) (gw : ℕ → GatewayResponse)
    (fetched : List Market) (n : ℕ) : List TradeOpportunity :=
  (sort_by_net_profit
    (scan_and_execute { bot.executor with auto_execute := false } gw
      (filter_markets_by_liquidity bot.min_liquidity fetched) n).1).filter
    (fun o => decide (0 < o.net_profit))

/-! ## Configuration (from `src/config.py`) -/

/-- `config._int_env`: an unset key yields the default, a set key is parsed
as an integer with the default on parse failure. -/
def int_env (env : String → Option String) (key : String) (default : ℤ) : ℤ :=
  match env key with
  | none => default
  | some raw => (raw.toInt?).getD default

/-- `config._float_env`: an unset key yields the default, a set key is parsed
by the decimal parser (abstracted as a parameter) with the default on parse
failure. -/
def float_env (parse : String → Option ℚ) (env : String → Option String)
    (key : String) (default : ℚ) : ℚ :=
  match env key with
  | none => default
  | some raw => (parse raw).getD default

/-- `config.get_min_profit_cents` (config.py lines 53-55). -/
def get_min_profit_cents (env : String → Option String) : ℤ :=
  int_env env "MIN_PROFIT_CENTS" 2

/-- `config.get_max_position_size` (config.py lines 58-60). -/
def get_max_position_size (env : String → Option String) : ℤ :=
  int_env env "MAX_POSITION_SIZE" 1000

/-- `config.get_min_profit_per_day` (config.py lines 63-65). -/
def get_min_profit_per_day (parse : String → Option ℚ)
    (env : String → Option String) : ℚ :=
  float_env parse env "MIN_PROFIT_PER_DAY" (1 / 10)

/-- `config.get_min_liquidity` (config.py lines 68-70). -/
def get_min_liquidity (env : String → Option String) : ℤ :=
  int_env env "MIN_LIQUIDITY" 10000

/-- `config.get_api_min_interval` (config.py lines 73-75). -/
def get_api_min_interval (parse : String → Option ℚ)
    (env : String → Option String) : ℚ :=
  float_env parse env "API_MIN_INTERVAL" (1 / 10)

/-- `KalshiArbitrageBot.__init__` (bot.py lines 40-56): the executor gets the
configured profit threshold and position cap plus the constructor's
`auto_execute_trades` flag; the bot keeps the configured per-day threshold
and liquidity floor. -/
def bot_init (env : String → Option String) (parse : String → Option ℚ)
    (auto_execute_trades : Bool) : KalshiArbitrageBot :=
  { executor :=
      { min_profit_cents := (get_min_profit_cents env : ℚ),
        max_position_size := get_max_position_size env,
        auto_execute := auto_execute_trades },
    min_profit_per_day := get_min_profit_per_day parse env,
    min_liquidity := get_min_liquidity env }

/-! ## CLI settings handler (from `src/cli.py`) -/

/-- Python `int()` applied to a rational: truncation toward zero. -/
def py_int_trunc (q : ℚ) : ℤ := q.num.tdiv q.den

/-- `cli.handle_configure_settings` (cli.py lines 159-178) restricted to its
effect on the bot state: the validated dollar input is converted to cents and
stored into `bot.min_liquidity`. -/
def handle_configure_settings (bot : KalshiArbitrageBot)
    (min_liquidity_dollars : ℚ) : KalshiArbitrageBot :=
  { bot with min_liquidity := py_int_trunc (min_liquidity_dollars * 100) }

/-! ## Concrete fixtures used by counterexamples and witnesses -/

/-- An environment with every variable unset. -/
def env_empty : String → Option String := fun _ => none

/-- A decimal parser that always fails (irrelevant to the unset-variable claims). -/
def parse_none : String → Option ℚ := fun _ => none

/-- A bot constructed with all configuration defaults and auto-execute off. -/
def demoBot : KalshiArbitrageBot := bot_init env_empty parse_none false

/-- A liquid market with a tradeable, uncrossed yes side. -/
def demoMarket : Market :=
  ⟨"TICK-A", "Demo market", some 20000, some 10, some 20, none, none, 10⟩

/-- A liquid market with a crossed yes book (bid 60 over ask 55). -/
def crossedMarket : Market :=
  ⟨"TICK-B", "Crossed market", some 100000, some 60, some 55, none, none, 5⟩

/-- A liquid market whose two present sides both quote bid equal to ask. -/
def equalQuoteMarket : Market :=
  ⟨"TICK-C", "Equal quotes", some 50000, some 40, some 40, some 60, some 60, 3⟩

/-- A gateway that rejects every submitted order (never fatally). -/
def gw_reject : ℕ → GatewayResponse := fun _ => .rejected

/-- An analyzer stub returning one fixed opportunity regardless of input. -/
def demoArbOpp : ArbitrageOpportunity :=
  ⟨"TICK-A", "Demo market", 97, 3, 10, 3, 2, 1 / 5⟩

/-- An analyzer returning `demoArbOpp` for every market list. -/
def demoAnalyzer : List Market → List ArbitrageOpportunity := fun _ => [demoArbOpp]

/-! ## Claim C9: configuration defaults -/

/-- C9: when the corresponding environment variable is unset, the
configuration getters return exactly the documented defaults: 2, 1000, 0.10,
10000 and 0.1. -/
theorem config_defaults_when_unset (env : String → Option String)
    (parse : String → Option ℚ)
    (h1 : env "MIN_PROFIT_CENTS" = none) (h2 : env "MAX_POSITION_SIZE" = none)
    (h3 : env "MIN_PROFIT_PER_DAY" = none) (h4 : env "MIN_LIQUIDITY" = none)
    (h5 : env "API_MIN_INTERVAL" = none) :
    get_min_profit_cents env = 2 ∧ get_max_position_size env = 1000 ∧
    get_min_profit_per_day parse env = 0.10 ∧ get_min_liquidity env = 10000 ∧
    get_api_min_interval parse env = 0.1 := by
  refine ⟨?_, ?_, ?_, ?_, ?_⟩ <;>
    simp [get_min_profit_cents, get_max_position_size, get_min_profit_per_day,
      get_min_liquidity, get_api_min_interval, int_env, float_env,
      h1, h2, h3, h4, h5] <;> norm_num

/-- Witness for C9 at the all-unset environment. -/
theorem config_defaults_when_unset_witness :
    get_min_profit_cents env_empty = 2 ∧ get_max_position_size env_empty = 1000 ∧
    get_min_profit_per_day parse_none env_empty = 0.10 ∧
    get_min_liquidity env_empty = 10000 ∧
    get_api_min_interval parse_none env_empty = 0.1 :=
  config_defaults_when_unset env_empty parse_none rfl rfl rfl rfl rfl

/-! ## Claim C8: mutability of the configured limits -/

/-- C8 counterexample: the configure-settings menu operation, reachable after
bot construction, changes `bot.min_liquidity` (here from the default 10000 to
25000 on a $250 input), so the PositionLimits values are not all read-only
after startup. -/
theorem configure_settings_mutates_min_liquidity :
    (handle_configure_settings demoBot 250).min_liquidity ≠ demoBot.min_liquidity := by
  have h1 : (handle_configure_settings demoBot 250).min_liquidity = 25000 := by
    show py_int_trunc ((250 : ℚ) * 100) = 25000
    norm_num [py_int_trunc]
  have h2 : demoBot.min_liquidity = 10000 := rfl
  rw [h1, h2]
  decide

/-- C8 (amended): only `min_liquidity` is mutable after startup — the
configure-settings operation sets it to the entered dollar amount converted
to cents, and leaves `min_profit_per_day` and the executor's
`min_profit_cents` and `max_position_size` unchanged. -/
theorem configure_settings_updates_only_min_liquidity
    (bot : KalshiArbitrageBot) (d : ℚ) :
    (handle_configure_settings bot d).min_liquidity = py_int_trunc (d * 100) ∧
    (handle_configure_settings bot d).min_profit_per_day = bot.min_profit_per_day ∧
    (handle_configure_settings bot d).executor = bot.executor :=
  ⟨rfl, rfl, rfl⟩

/-! ## Claim C7: empty market data -/

/-- C7: when the market data source yields an empty sequence, every scan
completes with its empty result and, for every analyzer and every gateway
oracle, performs no detector invocation and no gateway call (the result is
independent of both and the gateway counter is unchanged). -/
theorem empty_fetch_safe (bot : KalshiArbitrageBot)
    (analyzer : List Market → List ArbitrageOpportunity)
    (gw : ℕ → GatewayResponse) (a x : Bool) (n : ℕ) :
    scan_all_opportunities bot analyzer gw [] a n =
      ⟨.ok ([], [], 0), n, [bot.executor.auto_execute], []⟩ ∧
    scan_arbitrage_opportunities bot analyzer [] = [] ∧
    scan_immediate_trades bot gw [] x n = ⟨[], n, [bot.executor.auto_execute]⟩ := by
  refine ⟨?_, ?_, ?_⟩ <;>
    simp [scan_all_opportunities, scan_arbitrage_opportunities,
      scan_immediate_trades, filter_markets_by_liquidity]

/-! ## Claim C4: no execution when auto-execute is off -/

/-- C4: a full scan with `auto_execute = false` performs zero order
submissions: the gateway counter is unchanged, no opportunity is attempted,
and the returned executed count is 0. -/
theorem scan_all_no_execution_when_auto_false (bot : KalshiArbitrageBot)
    (analyzer : List Market → List ArbitrageOpportunity)
    (gw : ℕ → GatewayResponse) (fetched : List Market) (n : ℕ) :
    (scan_all_opportunities bot analyzer gw fetched false n).calls_end = n ∧
    (scan_all_opportunities bot analyzer gw fetched false n).attempted = [] ∧
    ∃ arbs trades,
      (scan_all_opportunities bot analyzer gw fetched false n).outcome =
        Except.ok (arbs, trades, 0) := by
  simp only [scan_all_opportunities]
  split
  · exact ⟨rfl, rfl, [], [], rfl⟩
  · refine ⟨?_, ?_, ?_⟩
    · simp [scan_and_execute]
    · simp
    · simp only [Bool.false_and, Bool.false_eq_true, if_false]
      exact ⟨_, _, rfl⟩

/-! ## Claim C1: the shared auto-execute flag during scans -/

/-- C1 counterexample: `scan_immediate_trades` called with
`auto_execute := true` on a bot whose executor flag is `false` makes the flag
take the value `true` mid-call, so the flag does not equal its entry value at
every point of the call. -/
theorem scan_mutates_auto_execute_flag :
    demoBot.executor.auto_execute = false ∧
    ((scan_immediate_trades demoBot gw_reject [demoMarket] true 0).auto_trace.all
      (fun b => b == demoBot.executor.auto_execute)) = false := by
  decide

/-- C1 (amended): both scans do temporarily mutate the shared executor's
`auto_execute` field (`scan_immediate_trades` to its parameter,
`scan_all_opportunities` to `false`), but always restore it before
returning: the field's trace starts and ends at its entry value. -/
theorem auto_execute_flag_restored (bot : KalshiArbitrageBot)
    (analyzer : List Market → List ArbitrageOpportunity)
    (gw : ℕ → GatewayResponse) (fetched : List Market) (x a : Bool) (n : ℕ) :
    (scan_immediate_trades bot gw fetched x n).auto_trace.head? =
      some bot.executor.auto_execute ∧
    (scan_immediate_trades bot gw fetched x n).auto_trace.getLast? =
      some bot.executor.auto_execute ∧
    (scan_all_opportunities bot analyzer gw fetched a n).auto_trace.head? =
      some bot.executor.auto_execute ∧
    (scan_all_opportunities bot analyzer gw fetched a n).auto_trace.getLast? =
      some bot.executor.auto_execute := by
  simp only [scan_immediate_trades, scan_all_opportunities]
  refine ⟨?_, ?_, ?_, ?_⟩ <;> (repeat' split) <;> rfl

/-! ## Claim C6: the liquidity filter -/

/-- C6: for a positive liquidity floor, `filter_markets_by_liquidity` keeps
exactly the markets whose liquidity field is present with a value at or above
the floor and which have a tradeable side (a missing field, read as 0, fails
the floor), and every market it passes on to the detectors meets the floor. -/
theorem liquidity_filter_exact (min_liq : ℤ) (markets : List Market) (m : Market)
    (hpos : 0 < min_liq) :
    (m ∈ filter_markets_by_liquidity min_liq markets ↔
      m ∈ markets ∧ (∃ l, m.liquidity = some l ∧ min_liq ≤ l) ∧
        has_tradeable_liquidity m = true) ∧
    ∀ m' ∈ filter_markets_by_liquidity min_liq markets,
      min_liq ≤ m'.liquidity.getD 0 := by
  constructor
  · rw [filter_markets_by_liquidity, List.mem_filter]
    constructor
    · rintro ⟨hm, hcond⟩
      simp only [Bool.and_eq_true, decide_eq_true_eq] at hcond
      obtain ⟨hliq, htr⟩ := hcond
      refine ⟨hm, ?_, htr⟩
      cases hl : m.liquidity with
      | none =>
        rw [hl] at hliq
        simp only [Option.getD_none] at hliq
        omega
      | some l =>
        rw [hl] at hliq
        simp only [Option.getD_some] at hliq
        exact ⟨l, rfl, hliq⟩
    · rintro ⟨hm, ⟨l, hl, hle⟩, htr⟩
      refine ⟨hm, ?_⟩
      simp [hl, htr, hle]
  · intro m' hm'
    rw [filter_markets_by_liquidity, List.mem_filter] at hm'
    simp only [Bool.and_eq_true, decide_eq_true_eq] at hm'
    exact hm'.2.1

/-- Witness for C6 at the default floor and a liquid, tradeable market. -/
theorem liquidity_filter_exact_witness :
    demoMarket ∈ filter_markets_by_liquidity 10000 [demoMarket] ∧
    10000 ≤ demoMarket.liquidity.getD 0 := by
  have h := liquidity_filter_exact 10000 [demoMarket] demoMarket (by norm_num)
  have hmem : demoMarket ∈ filter_markets_by_liquidity 10000 [demoMarket] :=
    h.1.mpr ⟨by simp, ⟨20000, rfl, by norm_num⟩, by decide⟩
  exact ⟨hmem, h.2 demoMarket hmem⟩

/-! ## Claim C10: equal-quote sides are not tradeable -/

/-- C10: a side counts as tradeable exactly when both its bid and its ask
are present and unequal, so a market all of whose present sides quote bid
equal to ask is excluded by the liquidity filter regardless of its
liquidity. -/
theorem equal_quotes_market_excluded (min_liq : ℤ) (markets : List Market)
    (m : Market)
    (hy : ∀ b a : ℤ, m.yes_bid = some b → m.yes_ask = some a → b = a)
    (hn : ∀ b a : ℤ, m.no_bid = some b → m.no_ask = some a → b = a) :
    (has_tradeable_liquidity m = true ↔
      (∃ b a : ℤ, m.yes_bid = some b ∧ m.yes_ask = some a ∧ b ≠ a) ∨
      (∃ b a : ℤ, m.no_bid = some b ∧ m.no_ask = some a ∧ b ≠ a)) ∧
    m ∉ filter_markets_by_liquidity min_liq markets := by
  have hiff : has_tradeable_liquidity m = true ↔
      (∃ b a : ℤ, m.yes_bid = some b ∧ m.yes_ask = some a ∧ b ≠ a) ∨
      (∃ b a : ℤ, m.no_bid = some b ∧ m.no_ask = some a ∧ b ≠ a) := by
    unfold has_tradeable_liquidity
    cases hyb : m.yes_bid <;> cases hya : m.yes_ask <;>
      cases hnb : m.no_bid <;> cases hna : m.no_ask <;> simp
  refine ⟨hiff, ?_⟩
  intro hmem
  rw [filter_markets_by_liquidity, List.mem_filter] at hmem
  have htr : has_tradeable_liquidity m = true := by
    have := hmem.2
    simp only [Bool.and_eq_true] at this
    exact this.2
  rcases hiff.mp htr with ⟨b, a, hb, ha, hne⟩ | ⟨b, a, hb, ha, hne⟩
  · exact hne (hy b a hb ha)
  · exact hne (hn b a hb ha)

/-- Witness for C10 at a liquid market whose two sides both quote 40/40 and
60/60. -/
theorem equal_quotes_market_excluded_witness :
    equalQuoteMarket ∉ filter_markets_by_liquidity 10000 [equalQuoteMarket] :=
  (equal_quotes_market_excluded 10000 [equalQuoteMarket] equalQuoteMarket
    (fun b a hb ha => by
      have hb' : some (40 : ℤ) = some b := hb
      have ha' : some (40 : ℤ) = some a := ha
      rw [← Option.some.inj hb', ← Option.some.inj ha'])
    (fun b a hb ha => by
      have hb' : some (60 : ℤ) = some b := hb
      have ha' : some (60 : ℤ) = some a := ha
      rw [← Option.some.inj hb', ← Option.some.inj ha'])).2

/-! ## Claim C2: the per-day profit threshold is applied by the caller -/

/-- C2: every arbitrage opportunity returned by
`scan_arbitrage_opportunities` and by `scan_all_opportunities` meets
`min_profit_per_day`, and the filtering is applied by the bot to the raw
analyzer output after detection (for every analyzer, the returned list is
exactly the analyzer's output filtered by the threshold). -/
theorem arbitrage_filtered_by_caller (bot : KalshiArbitrageBot)
    (analyzer : List Market → List ArbitrageOpportunity)
    (gw : ℕ → GatewayResponse) (fetched : List Market) (a : Bool) (n : ℕ) :
    (∀ o ∈ scan_arbitrage_opportunities bot analyzer fetched,
      bot.min_profit_per_day ≤ o.profit_per_day) ∧
    (∀ arbs trades cnt,
      (scan_all_opportunities bot analyzer gw fetched a n).outcome =
        Except.ok (arbs, trades, cnt) →
      ∀ o ∈ arbs, bot.min_profit_per_day ≤ o.profit_per_day) ∧
    (filter_markets_by_liquidity bot.min_liquidity fetched ≠ [] →
      scan_arbitrage_opportunities bot analyzer fetched =
        (analyzer (filter_markets_by_liquidity bot.min_liquidity fetched)).filter
          (fun o => decide (bot.min_profit_per_day ≤ o.profit_per_day))) := by
  refine ⟨?_, ?_, ?_⟩
  · intro o ho
    simp only [scan_arbitrage_opportunities] at ho
    split at ho
    · simp at ho
    · rw [List.mem_filter] at ho
      exact decide_eq_true_eq.mp ho.2
  · intro arbs trades cnt hok o ho
    simp only [scan_all_opportunities] at hok
    split at hok
    · simp only [Except.ok.injEq, Prod.mk.injEq] at hok
      rw [← hok.1] at ho
      simp at ho
    · split at hok
      · split at hok
        · exact absurd hok (by simp)
        · simp only [Except.ok.injEq, Prod.mk.injEq] at hok
          rw [← hok.1] at ho
          rw [List.mem_filter] at ho
          exact decide_eq_true_eq.mp ho.2
      · simp only [Except.ok.injEq, Prod.mk.injEq] at hok
        rw [← hok.1] at ho
        rw [List.mem_filter] at ho
        exact decide_eq_true_eq.mp ho.2
  · intro hne
    simp only [scan_arbitrage_opportunities]
    split
    · rename_i hemp
      exact absurd (List.isEmpty_iff.mp hemp) hne
    · rfl

/-- Witness for C2 at a concrete bot, analyzer and market list. -/
theorem arbitrage_filtered_by_caller_witness :
    demoBot.min_profit_per_day ≤ demoArbOpp.profit_per_day ∧
    scan_arbitrage_opportunities demoBot demoAnalyzer [demoMarket] =
      (demoAnalyzer (filter_markets_by_liquidity demoBot.min_liquidity [demoMarket])).filter
        (fun o => decide (demoBot.min_profit_per_day ≤ o.profit_per_day)) := by
  have h := arbitrage_filtered_by_caller demoBot demoAnalyzer gw_reject [demoMarket] false 0
  have hne : filter_markets_by_liquidity demoBot.min_liquidity [demoMarket] ≠ [] := by
    decide
  have hle : demoBot.min_profit_per_day ≤ demoArbOpp.profit_per_day := by
    show (1 : ℚ) / 10 ≤ 1 / 5
    norm_num
  have hmem : demoArbOpp ∈ scan_arbitrage_opportunities demoBot demoAnalyzer [demoMarket] := by
    rw [h.2.2 hne]
    exact List.mem_filter.mpr ⟨by simp [demoAnalyzer], decide_eq_true hle⟩
  exact ⟨h.1 demoArbOpp hmem, h.2.2 hne⟩

/-! ## Claim C5: fee-rate properties -/

/-- The taker fee rate is antitone in the distance of the price from 50
cents. -/
theorem get_fee_rate_taker_le {p q : ℤ} (h : |(p : ℚ) - 50| ≤ |(q : ℚ) - 50|) :
    get_fee_rate q false ≤ get_fee_rate p false := by
  show (if 48 ≤ |(q : ℚ) - 50| then (1 : ℚ) / 100
        else 7 / 200 - |(q : ℚ) - 50| * (1 / 1920)) ≤
      (if 48 ≤ |(p : ℚ) - 50| then (1 : ℚ) / 100
        else 7 / 200 - |(p : ℚ) - 50| * (1 / 1920))
  have hp : (0 : ℚ) ≤ |(p : ℚ) - 50| := abs_nonneg _
  split_ifs with h1 h2
  · exact le_refl _
  · have := not_le.mp h2
    linarith
  · have := not_le.mp h1
    linarith
  · linarith

/-- C5: the maker rate is exactly half the taker rate at every price in
[1, 99]; the taker rate is 0.035 at 50 and 0.01 at 2 and 98; and the taker
rate is non-increasing as the price moves away from 50 on each side. -/
theorem fee_rate_spec (p q : ℤ) (hp1 : 1 ≤ p) (hp2 : p ≤ 99)
    (hq1 : 1 ≤ q) (hq2 : q ≤ 99) :
    get_fee_rate p true = (1 / 2) * get_fee_rate p false ∧
    get_fee_rate 50 false = 0.035 ∧
    get_fee_rate 2 false = 0.01 ∧
    get_fee_rate 98 false = 0.01 ∧
    (50 ≤ p → p ≤ q → get_fee_rate q false ≤ get_fee_rate p false) ∧
    (q ≤ p → p ≤ 50 → get_fee_rate q false ≤ get_fee_rate p false) := by
  refine ⟨?_, ?_, ?_, ?_, ?_, ?_⟩
  · show (if 48 ≤ |(p : ℚ) - 50| then (1 : ℚ) / 100
        else 7 / 200 - |(p : ℚ) - 50| * (1 / 1920)) / 2 =
      (1 / 2) * (if 48 ≤ |(p : ℚ) - 50| then (1 : ℚ) / 100
        else 7 / 200 - |(p : ℚ) - 50| * (1 / 1920))
    ring
  · show (if 48 ≤ |(50 : ℚ) - 50| then (1 : ℚ) / 100
        else 7 / 200 - |(50 : ℚ) - 50| * (1 / 1920)) = 0.035
    norm_num
  · show (if 48 ≤ |(2 : ℚ) - 50| then (1 : ℚ) / 100
        else 7 / 200 - |(2 : ℚ) - 50| * (1 / 1920)) = 0.01
    rw [show (2 : ℚ) - 50 = -48 by norm_num, abs_neg, abs_of_nonneg (by norm_num)]
    norm_num
  · show (if 48 ≤ |(98 : ℚ) - 50| then (1 : ℚ) / 100
        else 7 / 200 - |(98 : ℚ) - 50| * (1 / 1920)) = 0.01
    rw [show (98 : ℚ) - 50 = 48 by norm_num, abs_of_nonneg (by norm_num)]
    norm_num
  · intro h50 hpq
    apply get_fee_rate_taker_le
    have h1 : (50 : ℚ) ≤ (p : ℚ) := by exact_mod_cast h50
    have h2 : (p : ℚ) ≤ (q : ℚ) := by exact_mod_cast hpq
    rw [abs_of_nonneg (by linarith), abs_of_nonneg (by linarith)]
    linarith
  · intro hqp hp50
    apply get_fee_rate_taker_le
    have h1 : (p : ℚ) ≤ 50 := by exact_mod_cast hp50
    have h2 : (q : ℚ) ≤ (p : ℚ) := by exact_mod_cast hqp
    rw [abs_of_nonpos (by linarith), abs_of_nonpos (by linarith)]
    linarith

/-- Witness for C5 at prices 55 and 60. -/
theorem fee_rate_spec_witness :
    get_fee_rate 55 true = (1 / 2) * get_fee_rate 55 false ∧
    get_fee_rate 60 false ≤ get_fee_rate 55 false := by
  have h := fee_rate_spec 55 60 (by norm_num) (by norm_num) (by norm_num) (by norm_num)
  exact ⟨h.1, h.2.2.2.2.1 (by norm_num) (by norm_num)⟩

/-! ## Claim C3: the auto-execute batch -/

/-- With a never-fatal gateway, `execute_trade` always returns a result
rather than raising. -/
theorem execute_trade_ok_of_no_fatal (mpc : ℚ) (gw : ℕ → GatewayResponse)
    (hgw : ∀ k, gw k ≠ GatewayResponse.fatal) (o : TradeOpportunity) (n : ℕ) :
    ∃ s msg m, execute_trade mpc gw o n = (Except.ok (s, msg), m) := by
  unfold execute_trade
  split_ifs with h
  · exact ⟨false, _, n, rfl⟩
  · cases h1 : gw n with
    | fatal => exact absurd h1 (hgw n)
    | rejected => exact ⟨false, _, n + 1, rfl⟩
    | accepted =>
      cases h2 : gw (n + 1) with
      | fatal => exact absurd h2 (hgw (n + 1))
      | rejected => exact ⟨false, _, n + 2, rfl⟩
      | accepted => exact ⟨true, _, n + 2, rfl⟩

/-- The auto-execute loop attempts a prefix of its input list: only an
interruption can drop the remainder. -/
theorem run_auto_exec_initial_segment (mpc : ℚ) (gw : ℕ → GatewayResponse)
    (l : List TradeOpportunity) (n : ℕ) :
    (run_auto_exec mpc gw l n).attempted <+: l := by
  induction l generalizing n with
  | nil => simp [run_auto_exec]
  | cons o rest ih =>
    cases hres : execute_trade mpc gw o n with
    | mk e m =>
      cases e with
      | error s =>
        simp only [run_auto_exec, hres]
        exact ⟨rest, rfl⟩
      | ok p =>
        obtain ⟨s, msg⟩ := p
        simp only [run_auto_exec, hres]
        obtain ⟨t, ht⟩ := ih m
        exact ⟨t, by rw [List.cons_append, ht]⟩

/-- With a never-fatal gateway the auto-execute loop attempts every element
of its input list (rejected orders do not stop it) and reports no fatal
interruption. -/
theorem run_auto_exec_no_fatal (mpc : ℚ) (gw : ℕ → GatewayResponse)
    (hgw : ∀ k, gw k ≠ GatewayResponse.fatal) (l : List TradeOpportunity) (n : ℕ) :
    (run_auto_exec mpc gw l n).attempted = l ∧
    (run_auto_exec mpc gw l n).fatal = false := by
  induction l generalizing n with
  | nil => simp [run_auto_exec]
  | cons o rest ih =>
    obtain ⟨s, msg, m, hres⟩ := execute_trade_ok_of_no_fatal mpc gw hgw o n
    simp only [run_auto_exec, hres]
    exact ⟨by rw [(ih m).1], (ih m).2⟩

/-- The profitable batch inherits descending-net-profit order from the
ranked list. -/
theorem profitable_batch_pairwise (bot : KalshiArbitrageBot)
    (gw : ℕ → GatewayResponse) (fetched : List Market) (n : ℕ) :
    (profitable_batch bot gw fetched n).Pairwise net_desc := by
  unfold profitable_batch sort_by_net_profit
  exact (List.sorted_insertionSort net_desc _).filter _

/-- C3: with auto-execute on, the attempted opportunities always form a
prefix of the profitable batch (only a fatal gateway fault drops the
remainder), are in descending net-profit order, and — whenever the gateway
never faults fatally, regardless of rejected orders — are exactly the
opportunities with positive net profit of the returned ranked list. -/
theorem auto_exec_batch_exact (bot : KalshiArbitrageBot)
    (analyzer : List Market → List ArbitrageOpportunity)
    (gw : ℕ → GatewayResponse) (fetched : List Market) (n : ℕ) :
    (scan_all_opportunities bot analyzer gw fetched true n).attempted <+:
      profitable_batch bot gw fetched n ∧
    (scan_all_opportunities bot analyzer gw fetched true n).attempted.Pairwise net_desc ∧
    ((∀ k, gw k ≠ GatewayResponse.fatal) →
      (scan_all_opportunities bot analyzer gw fetched true n).attempted =
        profitable_batch bot gw fetched n ∧
      ∃ arbs trades cnt,
        (scan_all_opportunities bot analyzer gw fetched true n).outcome =
          Except.ok (arbs, trades, cnt) ∧
        profitable_batch bot gw fetched n =
          List.filter (fun o => decide (0 < o.net_profit)) trades) := by
  have hpb := profitable_batch_pairwise bot gw fetched n
  simp only [scan_all_opportunities]
  split
  · rename_i hemp
    have hmk : filter_markets_by_liquidity bot.min_liquidity fetched = [] :=
      List.isEmpty_iff.mp hemp
    have hfull : profitable_batch bot gw fetched n = [] := by
      unfold profitable_batch
      rw [hmk]
      rfl
    refine ⟨by simp [hfull], by simp, fun hgw => ⟨by simp [hfull], [], [], 0, rfl, by simp [hfull]⟩⟩
  · rename_i hemp
    simp only [Bool.true_and]
    split
    · rename_i hne'
      split
      · rename_i hfat
        refine ⟨run_auto_exec_initial_segment _ _ _ _,
          List.Pairwise.sublist (run_auto_exec_initial_segment _ _ _ _).sublist hpb, ?_⟩
        intro hgw
        rw [(run_auto_exec_no_fatal bot.executor.min_profit_cents gw hgw _ _).2] at hfat
        exact absurd hfat Bool.false_ne_true
      · rename_i hfat
        refine ⟨run_auto_exec_initial_segment _ _ _ _,
          List.Pairwise.sublist (run_auto_exec_initial_segment _ _ _ _).sublist hpb, ?_⟩
        intro hgw
        exact ⟨(run_auto_exec_no_fatal bot.executor.min_profit_cents gw hgw _ _).1,
          _, _, _, rfl, rfl⟩
    · rename_i hcond
      have hsort : sort_by_net_profit
          (scan_and_execute { bot.executor with auto_execute := false } gw
            (filter_markets_by_liquidity bot.min_liquidity fetched) n).1 = [] := by
        apply List.isEmpty_iff.mp
        simpa using hcond
      have hfull : profitable_batch bot gw fetched n = [] := by
        unfold profitable_batch
        rw [hsort]
        rfl
      refine ⟨by simp [hfull], by simp, fun hgw => ⟨by simp [hfull], _, _, _, rfl, rfl⟩⟩

/-- Witness for C3 at a crossed market against an always-rejecting (never
fatal) gateway. -/
theorem auto_exec_batch_exact_witness :
    (scan_all_opportunities demoBot demoAnalyzer gw_reject [crossedMarket] true 0).attempted =
      profitable_batch demoBot gw_reject [crossedMarket] 0 ∧
    ∃ arbs trades cnt,
      (scan_all_opportunities demoBot demoAnalyzer gw_reject [crossedMarket] true 0).outcome =
        Except.ok (arbs, trades, cnt) ∧
      profitable_batch demoBot gw_reject [crossedMarket] 0 =
        List.filter (fun o => decide (0 < o.net_profit)) trades :=
  (auto_exec_batch_exact demoBot demoAnalyzer gw_reject [crossedMarket] 0).2.2
    (fun _ h => nomatch h)
